import Mathlib

/-!
Verification development for the taxi dispatch system.

This file gives a shallow embedding of the dispatch core of the repository
(api/models.py, api/services.py, api/tasks.py) and proves properties of it.

Modelling conventions:
* Monetary amounts (Decimal fields with two decimal places, always whole
  tenge in this system) are modelled as Int.
* Distances (geodesic results, used only for ordering) are modelled as Int
  oracle values attached to each driver record; the geodesic computation
  itself is an external floating point library and is treated as an input.
* The stored driver average rating (a Decimal) is modelled as a rational.
* Telegram ids and database primary keys of users are identified: one Nat
  names a user everywhere.
* Timestamps (timezone.now()) are Nat values supplied by the caller.
* The Telegram gateway is modelled by its observable effects: the list of
  outstanding offer messages, the list of scheduled auto reject timers and
  the list of messages sent to passengers.  Sending is modelled as always
  succeeding; gateway failures are logged by the source and change no ride
  state.
-/

namespace TaxiBot

/-- The ride status enumeration (STATUS_CHOICES of the Ride model). -/
inductive Status where
  | requested
  | assigned
  | driver_enroute
  | driver_arrived
  | in_progress
  | completed
  | cancelled_by_passenger
  | cancelled_by_driver
  | cancelled_by_system
deriving DecidableEq, Repr

/-- The check "cancelled in new_status" of Ride.update_status: exactly the
three cancelled variants contain the substring cancelled. -/
def Status.isCancelled : Status → Bool
  | .cancelled_by_passenger => true
  | .cancelled_by_driver => true
  | .cancelled_by_system => true
  | _ => false

/-- The statuses counted as an active ride in DriverService.accept_ride. -/
def Status.isActive : Status → Bool
  | .assigned => true
  | .driver_enroute => true
  | .driver_arrived => true
  | .in_progress => true
  | _ => false

/-- Terminal statuses named by the spec: completed and the cancelled
variants. -/
def Status.isTerminal : Status → Bool
  | .completed => true
  | s => s.isCancelled

/-- The Ride model row (fields relevant to the dispatch core). -/
structure Ride where
  id : Nat
  passenger : Nat
  driver : Option Nat
  estimated_cost : Int
  current_cost : Option Int
  fare_boosts : Nat
  status : Status
  accepted_at : Option Nat
  started_at : Option Nat
  completed_at : Option Nat
  cancelled_at : Option Nat
  cancellation_reason : String
deriving DecidableEq, Repr

/-- A RideStatus history row: (ride, status, notes, created_at). -/
structure RideStatus where
  ride : Nat
  status : Status
  notes : String
  created_at : Nat
deriving DecidableEq, Repr

/-- A Rating row. -/
structure Rating where
  ride : Nat
  rated_by : Nat
  rated_user : Nat
  stars : Nat
  comment : String
deriving DecidableEq, Repr

/-- The User model (the profile existence flags stand for the Django
hasattr checks on passenger_profile and driver_profile). -/
structure User where
  id : Nat
  has_passenger_profile : Bool
  has_driver_profile : Bool
deriving DecidableEq, Repr

/-- The Driver model row (fields read by the dispatch core).  The field
distance_to_pickup is the geodesic distance oracle for the pickup point of
the ride under consideration; has_location is the truthiness check on
current_lat and current_lng. -/
structure Driver where
  user_id : Nat
  is_online : Bool
  is_verified : Bool
  has_location : Bool
  distance_to_pickup : Int
  average_rating : ℚ
deriving DecidableEq, Repr

/-- The configurable AppSettings values read by the core. -/
structure AppSettings where
  default_ride_cost : Int
  fare_boost_amount : Int
  max_fare_boosts : Nat
deriving DecidableEq, Repr

/-- Python truthiness based fallback (x or y) on a nullable Decimal: both
None and a zero Decimal fall back to the second operand. -/
def pyOrCost : Option Int → Int → Int
  | none, e => e
  | some c, e => if c = 0 then e else c

/-- Ride.display_cost: current_cost or estimated_cost. -/
def Ride.display_cost (r : Ride) : Int :=
  pyOrCost r.current_cost r.estimated_cost

/-- Ride.update_status: sets the status, sets the timestamp of the entered
state only when it is not already set (the elif chain of the source, in
source order), and produces the RideStatus history row that the source
creates.  The caller appends that row to the history log. -/
def Ride.update_status (r : Ride) (new_status : Status) (notes : String)
    (now : Nat) : Ride × RideStatus :=
  let r1 : Ride := { r with status := new_status }
  let r2 : Ride :=
    if new_status = .assigned ∧ r1.accepted_at = none then
      { r1 with accepted_at := some now }
    else if new_status = .in_progress ∧ r1.started_at = none then
      { r1 with started_at := some now }
    else if new_status = .completed ∧ r1.completed_at = none then
      { r1 with completed_at := some now }
    else if new_status.isCancelled = true ∧ r1.cancelled_at = none then
      { r1 with cancelled_at := some now, cancellation_reason := notes }
    else r1
  (r2, { ride := r.id, status := new_status, notes := notes, created_at := now })

/-- Ride.boost_fare: refuse past the boost limit, refuse outside requested
status, otherwise add the configured amount to (current_cost or
estimated_cost) and count the boost.  The source messages interpolate the
configured numbers; the model keeps the fixed parts of the text. -/
def Ride.boost_fare (cfg : AppSettings) (r : Ride) : (Bool × String) × Ride :=
  if cfg.max_fare_boosts ≤ r.fare_boosts then
    ((false, "Maximum fare boosts already applied"), r)
  else if r.status ≠ .requested then
    ((false, "Can only boost fare for pending rides"), r)
  else
    let current_cost := pyOrCost r.current_cost r.estimated_cost
    let new_cost := current_cost + cfg.fare_boost_amount
    ((true, "Fare boosted"),
      { r with fare_boosts := r.fare_boosts + 1, current_cost := some new_cost })

/-- An outstanding offer message shown to a driver (the inline keyboard
message of send_driver_notification / send_boosted_ride_notification).
cost records the display cost printed into the message. -/
structure Offer where
  ride_id : Nat
  driver_id : Nat
  message_id : Nat
  cost : Int
deriving DecidableEq, Repr

/-- A scheduled auto_reject_ride task (apply_async with countdown 60). -/
structure Timer where
  ride_id : Nat
  driver_id : Nat
  message_id : Nat
deriving DecidableEq, Repr

/-- The combined observable state: database tables plus the gateway
effects.  Counter updates on collaborator rows (total_rides of drivers and
passengers) are owned by collaborators and are outside the modelled
state. -/
structure World where
  rides : List Ride
  history : List RideStatus
  drivers : List Driver
  users : List User
  ratings : List Rating
  offers : List Offer
  timers : List Timer
  passenger_msgs : List (Nat × String)
  next_message_id : Nat
deriving DecidableEq, Repr

/-- Saving a ride instance: every row with the same primary key is
overwritten with the in-memory instance (a blind write back, no condition
on the current row contents). -/
def World.setRide (w : World) (r : Ride) : World :=
  { w with rides := w.rides.map (fun x => if x.id = r.id then r else x) }

/-- Candidate entry dict of get_nearby_rides_for_new_ride. -/
structure CandidateEntry where
  driver : Driver
  distance_km : Int
deriving DecidableEq, Repr

/-- Stable insertion into a sorted list (the element is placed before the
first entry it is not greater than). -/
def insertSorted (le : α → α → Bool) (a : α) : List α → List α
  | [] => [a]
  | b :: bs => if le a b then a :: b :: bs else b :: insertSorted le a bs

/-- Stable sort modelling Python list.sort (which is stable). -/
def stableSort (le : α → α → Bool) : List α → List α
  | [] => []
  | a :: as => insertSorted le a (stableSort le as)

/-- PassengerService.get_nearby_rides_for_new_ride: every online and
verified driver is a candidate regardless of distance; the distance is 0
when the driver has no location; the list is sorted ascending by
distance. -/
def get_nearby_rides_for_new_ride (drivers : List Driver) : List CandidateEntry :=
  let available := drivers.filterMap (fun d =>
    if d.is_online && d.is_verified then
      some { driver := d, distance_km := if d.has_location then d.distance_to_pickup else 0 }
    else none)
  stableSort (fun a b => a.distance_km ≤ b.distance_km) available

/-- tasks.send_driver_notification: send the offer message with the current
display cost and schedule the 60 second auto_reject_ride task keyed by the
returned message id. -/
def send_driver_notification (w : World) (driver_id : Nat) (r : Ride) : World :=
  { w with
    offers := w.offers ++
      [{ ride_id := r.id, driver_id := driver_id, message_id := w.next_message_id,
         cost := r.display_cost }],
    timers := w.timers ++
      [{ ride_id := r.id, driver_id := driver_id, message_id := w.next_message_id }],
    next_message_id := w.next_message_id + 1 }

/-- tasks.send_boosted_ride_notification: same observable effect as
send_driver_notification, with the boosted display cost in the message. -/
def send_boosted_ride_notification (w : World) (driver_id : Nat) (r : Ride) : World :=
  { w with
    offers := w.offers ++
      [{ ride_id := r.id, driver_id := driver_id, message_id := w.next_message_id,
         cost := r.display_cost }],
    timers := w.timers ++
      [{ ride_id := r.id, driver_id := driver_id, message_id := w.next_message_id }],
    next_message_id := w.next_message_id + 1 }

/-- Lookup modelling Ride.objects.get(id=ride_id, status=requested); the
source assumes primary keys are unique, find? takes the first match. -/
def findRequestedRide (rides : List Ride) (ride_id : Nat) : Option Ride :=
  rides.find? (fun r => decide (r.id = ride_id ∧ r.status = .requested))

/-- tasks.cancel_ride_no_drivers: if the ride is still requested, move it
to cancelled_by_system with reason No drivers available, append history
and notify the passenger. -/
def cancel_ride_no_drivers (w : World) (ride_id : Nat) (now : Nat) : Bool × World :=
  match findRequestedRide w.rides ride_id with
  | none => (false, w)
  | some r =>
    let (r2, e) := r.update_status .cancelled_by_system "No drivers available" now
    let w1 := w.setRide r2
    (true, { w1 with
      history := w1.history ++ [e],
      passenger_msgs := w1.passenger_msgs ++ [(r.passenger, "ride_cancelled_no_drivers")] })

/-- tasks.reassign_ride_to_next_driver: recompute the candidate list, skip
the single excluded driver, and notify only the first remaining candidate;
when no candidate remains, run the no drivers cancellation. -/
def find_next_candidate (cs : List CandidateEntry) (exclude : Option Nat) :
    Option CandidateEntry :=
  cs.find? (fun c => decide (¬ exclude = some c.driver.user_id))

def reassign_ride_to_next_driver (w : World) (ride_id : Nat)
    (exclude : Option Nat) (now : Nat) : Bool × World :=
  match findRequestedRide w.rides ride_id with
  | none => (false, w)
  | some ride =>
    let available := get_nearby_rides_for_new_ride w.drivers
    if available.isEmpty then
      (false, (cancel_ride_no_drivers w ride_id now).2)
    else
      match find_next_candidate available exclude with
      | none => (false, (cancel_ride_no_drivers w ride_id now).2)
      | some c => (true, send_driver_notification w c.driver.user_id ride)

/-- tasks.notify_drivers_about_boosted_ride: recompute the candidate list
and send a boosted offer to every candidate; nothing is withdrawn or
cancelled first. -/
def notify_drivers_about_boosted_ride (w : World) (ride_id : Nat) : Bool × World :=
  match findRequestedRide w.rides ride_id with
  | none => (false, w)
  | some ride =>
    let available := get_nearby_rides_for_new_ride w.drivers
    if available.isEmpty then (false, w)
    else
      (true, available.foldl
        (fun acc c => send_boosted_ride_notification acc c.driver.user_id ride) w)

/-- Outcome of a service call: the pair (True, object) on success, the
pair (False, message) on a handled refusal, and (False, None) on the
generic exception path. -/
inductive ServiceResult where
  | ok (r : Ride)
  | err (msg : String)
  | fail
deriving DecidableEq, Repr

/-- The refusal text of DriverService.accept_ride for a driver that
already has an active ride. -/
def activeRideMsg : String :=
  "У вас есть активная поездка. Завершите её перед принятием новой."

/-- The exists() check on rides of this driver with an active status. -/
def driverHasActiveRide (rides : List Ride) (driver_id : Nat) : Bool :=
  rides.any (fun r => decide (r.driver = some driver_id) && r.status.isActive)

/-- The read phase of DriverService.accept_ride: the caller lookup (a user
with a driver profile; telegram id and user id are identified in the
model), the active ride check and the fetch of the ride row conditioned on
status requested.  No lock is taken; the returned snapshot is the basis of
the later blind save. -/
def accept_ride_read (w : World) (telegram_id ride_id : Nat) : Except String Ride :=
  match w.users.find? (fun u => decide (u.id = telegram_id)) with
  | none => .error "Error accepting ride"
  | some u =>
    if u.has_driver_profile = false then .error "Error accepting ride"
    else if driverHasActiveRide w.rides u.id then .error activeRideMsg
    else
      match findRequestedRide w.rides ride_id with
      | none => .error "Ride not available"
      | some r => .ok r

/-- The write phase of DriverService.accept_ride: bind the driver on the
snapshot, run update_status assigned (which saves the instance as it is in
memory, without re-checking the stored row) and append the history row. -/
def accept_ride_write (w : World) (driver_id : Nat) (snapshot : Ride)
    (now : Nat) : World :=
  let (r2, e) := Ride.update_status { snapshot with driver := some driver_id }
    .assigned "Driver assigned" now
  let w1 := w.setRide r2
  { w1 with history := w1.history ++ [e] }

/-- DriverService.accept_ride as one sequential (uninterleaved) call:
read phase then write phase against the same state.  The bound driver
identity equals the caller identity (the lookup succeeds on u.id =
telegram_id). -/
def accept_ride (w : World) (telegram_id ride_id now : Nat) : ServiceResult × World :=
  match accept_ride_read w telegram_id ride_id with
  | .error m => (.err m, w)
  | .ok r =>
    (.ok (Ride.update_status { r with driver := some telegram_id }
        .assigned "Driver assigned" now).1,
     accept_ride_write w telegram_id r now)

/-- A sequence of accept calls against the store, one driver after the
other, returning the final state and how many calls succeeded. -/
def run_accepts (w : World) (ride_id now : Nat) : List Nat → World × Nat
  | [] => (w, 0)
  | d :: ds =>
    let (res, w1) := accept_ride w d ride_id now
    let (w2, n) := run_accepts w1 ride_id now ds
    (w2, (match res with | .ok _ => 1 | _ => 0) + n)

/-- Two concurrent accept attempts whose read phases both run before
either write phase (the interleaving the source permits, since no lock or
conditional update guards the save).  Returns the two success flags, the
state after the first write and the final state. -/
def accept_two_interleaved (w : World) (d1 d2 ride_id now : Nat) :
    (Bool × Bool) × World × World :=
  let s1 := accept_ride_read w d1 ride_id
  let s2 := accept_ride_read w d2 ride_id
  let w1 := match s1 with | .error _ => w | .ok r => accept_ride_write w d1 r now
  let w2 := match s2 with | .error _ => w1 | .ok r => accept_ride_write w1 d2 r now
  ((match s1 with | .ok _ => true | _ => false,
    match s2 with | .ok _ => true | _ => false), w1, w2)

/-- The permission condition of RideService.update_ride_status: the caller
owns a passenger profile and is the bound passenger, or owns a driver
profile and is the bound driver. -/
def has_permission (u : User) (r : Ride) : Bool :=
  (u.has_passenger_profile && decide (r.passenger = u.id)) ||
  (u.has_driver_profile && decide (r.driver = some u.id))

/-- The shared mutation tail of the ride status services: run
update_status, save and append the history row. -/
def apply_ride_update (w : World) (ride : Ride) (ns : Status) (notes : String)
    (now : Nat) : ServiceResult × World :=
  let (r2, e) := ride.update_status ns notes now
  let w1 := w.setRide r2
  (.ok r2, { w1 with history := w1.history ++ [e] })

/-- RideService.update_ride_status: the permission check runs only when a
telegram_id is supplied (the parameter defaults to None in the source, and
a None caller skips the check entirely). -/
def update_ride_status (w : World) (ride_id : Nat) (ns : Status) (notes : String)
    (telegram_id : Option Nat) (now : Nat) : ServiceResult × World :=
  match w.rides.find? (fun r => decide (r.id = ride_id)) with
  | none => (.fail, w)
  | some ride =>
    match telegram_id with
    | some uid =>
      match w.users.find? (fun u => decide (u.id = uid)) with
      | none => (.fail, w)
      | some u =>
        if has_permission u ride then apply_ride_update w ride ns notes now
        else (.err "Permission denied", w)
    | none => apply_ride_update w ride ns notes now

/-- RideService.cancel_ride: the cancelled variant records which side
cancelled; any caller that is neither the bound passenger nor the bound
driver is refused. -/
def cancel_ride (w : World) (ride_id telegram_id : Nat) (reason : String)
    (now : Nat) : ServiceResult × World :=
  match w.users.find? (fun u => decide (u.id = telegram_id)) with
  | none => (.fail, w)
  | some u =>
    match w.rides.find? (fun r => decide (r.id = ride_id)) with
    | none => (.fail, w)
    | some ride =>
      if u.has_passenger_profile && decide (ride.passenger = u.id) then
        apply_ride_update w ride .cancelled_by_passenger reason now
      else if u.has_driver_profile && decide (ride.driver = some u.id) then
        apply_ride_update w ride .cancelled_by_driver reason now
      else (.err "Permission denied", w)

/-- Outcome of PassengerService.boost_ride_fare: (True, message, display
cost) or (False, message, None). -/
inductive BoostOutcome where
  | ok (msg : String) (display : Int)
  | err (msg : String)
deriving DecidableEq, Repr

/-- The lookup Ride.objects.get(id, passenger, status=requested) of
boost_ride_fare: id, owner and requested status folded into one query. -/
def find_owned_requested_ride (rides : List Ride) (owner rid : Nat) : Option Ride :=
  rides.find? (fun r =>
    decide (r.id = rid ∧ r.passenger = owner ∧ r.status = .requested))

/-- PassengerService.boost_ride_fare: the ride is fetched with id, owner
and status requested folded into one lookup, so a missing ride, a ride of
another passenger and a ride outside requested status all raise DoesNotExist
and produce the same message.  On success the boosted notification task
runs. -/
def boost_ride_fare (cfg : AppSettings) (w : World) (telegram_id ride_id : Nat) :
    BoostOutcome × World :=
  match w.users.find? (fun u => decide (u.id = telegram_id)) with
  | none => (.err "Error boosting fare", w)
  | some u =>
    if u.has_passenger_profile = false then (.err "Error boosting fare", w)
    else
      match find_owned_requested_ride w.rides u.id ride_id with
      | none => (.err "Ride not found or cannot be boosted", w)
      | some ride =>
        match ride.boost_fare cfg with
        | ((true, msg), r2) =>
          let w1 := w.setRide r2
          (.ok msg r2.display_cost, (notify_drivers_about_boosted_ride w1 ride_id).2)
        | ((false, msg), _) => (.err msg, w)

/-- Outcome of RideService.rate_ride. -/
inductive RateOutcome where
  | ok (rt : Rating)
  | err (msg : String)
  | fail
deriving DecidableEq, Repr

/-- The ratings received by one user identity, across all rides (the
filter rated_user=... of the average recomputation). -/
def ratings_for (ratings : List Rating) (uid : Nat) : List Rating :=
  ratings.filter (fun rt => decide (rt.rated_user = uid))

/-- The Avg aggregate over stars followed by the (avg or 0) fallback: the
arithmetic mean, and 0 on an empty set (rational division by zero is 0,
matching the None fallback). -/
def avg_stars (l : List Rating) : ℚ :=
  (l.map (fun rt => (rt.stars : ℚ))).sum / (l.length : ℚ)

/-- Persist a new average rating on the driver row of one user. -/
def set_driver_avg (w : World) (uid : Nat) (v : ℚ) : World :=
  { w with drivers := w.drivers.map (fun d =>
      if d.user_id = uid then { d with average_rating := v } else d) }

/-- The lookup Ride.objects.get(id, status=completed) of rate_ride. -/
def find_completed_ride (rides : List Ride) (rid : Nat) : Option Ride :=
  rides.find? (fun r => decide (r.id = rid ∧ r.status = .completed))

/-- The existing ratings of this rater on this ride (the duplicate
check filter of rate_ride). -/
def prior_ratings (ratings : List Rating) (rid uid : Nat) : List Rating :=
  ratings.filter (fun rt => decide (rt.ride = rid ∧ rt.rated_by = uid))

/-- RideService.rate_ride: the ride must be completed, a second rating by
the same rater is refused, the ratee is the other party, and when the
rater owns a passenger profile the driver average is recomputed over every
rating that driver identity ever received. -/
def rate_ride (w : World) (ride_id telegram_id stars : Nat) (comment : String) :
    RateOutcome × World :=
  match w.users.find? (fun u => decide (u.id = telegram_id)) with
  | none => (.fail, w)
  | some u =>
    match find_completed_ride w.rides ride_id with
    | none => (.fail, w)
    | some ride =>
      if (prior_ratings w.ratings ride_id u.id).isEmpty = false then
        (.err "Already rated", w)
      else
        if u.has_passenger_profile && decide (ride.passenger = u.id) then
          match ride.driver with
          | none => (.fail, w)
          | some duid =>
            let rt : Rating :=
              { ride := ride_id, rated_by := u.id, rated_user := duid,
                stars := stars, comment := comment }
            let w1 := { w with ratings := w.ratings ++ [rt] }
            (.ok rt, set_driver_avg w1 duid (avg_stars (ratings_for w1.ratings duid)))
        else if u.has_driver_profile && decide (ride.driver = some u.id) then
          let rt : Rating :=
            { ride := ride_id, rated_by := u.id, rated_user := ride.passenger,
              stars := stars, comment := comment }
          let w1 := { w with ratings := w.ratings ++ [rt] }
          if u.has_passenger_profile then
            match ride.driver with
            | none => (.fail, w1)
            | some duid =>
              (.ok rt, set_driver_avg w1 duid (avg_stars (ratings_for w1.ratings duid)))
          else (.ok rt, w1)
        else (.err "Permission denied", w)

/-- Iterated boost attempts on one ride (each attempt keeps the resulting
ride whether or not the attempt succeeded). -/
def boost_iter (cfg : AppSettings) (r : Ride) : Nat → Ride
  | 0 => r
  | n + 1 => (Ride.boost_fare cfg (boost_iter cfg r n)).2

/-- One lifecycle transition step carrying the ride and its history log. -/
def apply_transition (s : Ride × List RideStatus) (t : Status × String × Nat) :
    Ride × List RideStatus :=
  let (r2, e) := s.1.update_status t.1 t.2.1 t.2.2
  (r2, s.2 ++ [e])

/-- A sequence of lifecycle transitions. -/
def run_transitions (s : Ride × List RideStatus) :
    List (Status × String × Nat) → Ride × List RideStatus
  | [] => s
  | t :: ts => run_transitions (apply_transition s t) ts

/-! Helper lemmas about the transition function. -/

theorem update_status_status (r : Ride) (ns : Status) (notes : String) (now : Nat) :
    ((r.update_status ns notes now).1).status = ns := by
  simp only [Ride.update_status]
  split_ifs <;> rfl

theorem update_status_id (r : Ride) (ns : Status) (notes : String) (now : Nat) :
    ((r.update_status ns notes now).1).id = r.id := by
  simp only [Ride.update_status]
  split_ifs <;> rfl

theorem update_status_driver (r : Ride) (ns : Status) (notes : String) (now : Nat) :
    ((r.update_status ns notes now).1).driver = r.driver := by
  simp only [Ride.update_status]
  split_ifs <;> rfl

/-! Fare boost arithmetic. -/

/-- Nonnegativity of the stored cost fields, preserved by boosting. -/
def costs_nonneg (r : Ride) : Prop :=
  0 ≤ r.estimated_cost ∧ ∀ v, r.current_cost = some v → 0 ≤ v

theorem pyOrCost_nonneg (c : Option Int) (e : Int) (he : 0 ≤ e)
    (hc : ∀ v, c = some v → 0 ≤ v) : 0 ≤ pyOrCost c e := by
  cases c with
  | none => exact he
  | some v =>
    simp only [pyOrCost]
    split_ifs with h
    · exact he
    · exact hc v rfl

theorem pyOrCost_some (x e : Int) : pyOrCost (some x) e = if x = 0 then e else x := rfl

theorem boost_fare_mono_step (cfg : AppSettings) (r : Ride)
    (hb : 0 ≤ cfg.fare_boost_amount) (hr : costs_nonneg r) :
    r.display_cost ≤ ((r.boost_fare cfg).2).display_cost ∧
    costs_nonneg ((r.boost_fare cfg).2) := by
  obtain ⟨he, hc⟩ := hr
  have h0 : 0 ≤ pyOrCost r.current_cost r.estimated_cost := pyOrCost_nonneg _ _ he hc
  by_cases h1 : cfg.max_fare_boosts ≤ r.fare_boosts
  · simp only [Ride.boost_fare, if_pos h1]
    exact ⟨le_refl _, he, hc⟩
  · by_cases h2 : r.status ≠ .requested
    · simp only [Ride.boost_fare, if_neg h1, if_pos h2]
      exact ⟨le_refl _, he, hc⟩
    · simp only [Ride.boost_fare, if_neg h1, if_neg h2]
      refine ⟨?_, he, ?_⟩
      · simp only [Ride.display_cost, pyOrCost_some]
        split_ifs with h3
        · omega
        · omega
      · intro v hv
        simp only [Option.some.injEq] at hv
        omega

theorem boost_iter_mono (cfg : AppSettings) (r : Ride)
    (hb : 0 ≤ cfg.fare_boost_amount) (hr : costs_nonneg r) (n : Nat) :
    r.display_cost ≤ (boost_iter cfg r n).display_cost ∧
    costs_nonneg (boost_iter cfg r n) := by
  induction n with
  | zero => exact ⟨le_refl _, hr⟩
  | succ n ih =>
    have step := boost_fare_mono_step cfg (boost_iter cfg r n) hb ih.2
    exact ⟨le_trans ih.1 step.1, step.2⟩

/-- C5: with the boost count below the configured maximum and the ride in
requested status, a boost succeeds, sets current_cost to (current_cost or
estimated_cost) plus the configured amount and increments the count; the
display cost is non-decreasing across any sequence of boost attempts (for
a nonnegative configured amount and nonnegative stored costs); and a boost
at or past the maximum fails with the limit message and leaves the ride,
including its cost and count, unchanged. -/
theorem boost_fare_spec (cfg : AppSettings) (r : Ride)
    (hb : 0 ≤ cfg.fare_boost_amount) (hr : costs_nonneg r) :
    (r.fare_boosts < cfg.max_fare_boosts → r.status = .requested →
      ((r.boost_fare cfg).1).1 = true ∧
      ((r.boost_fare cfg).2).current_cost =
        some (pyOrCost r.current_cost r.estimated_cost + cfg.fare_boost_amount) ∧
      ((r.boost_fare cfg).2).fare_boosts = r.fare_boosts + 1) ∧
    (∀ n, r.display_cost ≤ (boost_iter cfg r n).display_cost) ∧
    (cfg.max_fare_boosts ≤ r.fare_boosts →
      r.boost_fare cfg = ((false, "Maximum fare boosts already applied"), r)) := by
  refine ⟨?_, fun n => (boost_iter_mono cfg r hb hr n).1, ?_⟩
  · intro hlt hst
    have h1 : ¬ cfg.max_fare_boosts ≤ r.fare_boosts := by omega
    have h2 : ¬ r.status ≠ .requested := by simp [hst]
    simp only [Ride.boost_fare, if_neg h1, if_neg h2]
    exact ⟨trivial, trivial, trivial⟩
  · intro hge
    simp only [Ride.boost_fare, if_pos hge]

/-- Configuration fixture: the documented defaults. -/
def cfg0 : AppSettings :=
  { default_ride_cost := 400, fare_boost_amount := 100, max_fare_boosts := 3 }

/-- Ride fixture for the boost claims. -/
def rideC5 : Ride :=
  { id := 1, passenger := 1, driver := none, estimated_cost := 400,
    current_cost := none, fare_boosts := 0, status := .requested,
    accepted_at := none, started_at := none, completed_at := none,
    cancelled_at := none, cancellation_reason := "" }

/-- Witness for C5 at the documented default configuration. -/
theorem boost_fare_spec_witness :
    (0 ≤ cfg0.fare_boost_amount ∧ costs_nonneg rideC5 ∧
      rideC5.fare_boosts < cfg0.max_fare_boosts ∧ rideC5.status = .requested) ∧
    (((rideC5.boost_fare cfg0).1).1 = true ∧
      ((rideC5.boost_fare cfg0).2).current_cost =
        some (pyOrCost rideC5.current_cost rideC5.estimated_cost + cfg0.fare_boost_amount) ∧
      ((rideC5.boost_fare cfg0).2).fare_boosts = rideC5.fare_boosts + 1) ∧
    (∀ n, rideC5.display_cost ≤ (boost_iter cfg0 rideC5 n).display_cost) := by
  have hc : costs_nonneg rideC5 := ⟨by decide, fun v hv => nomatch hv⟩
  refine ⟨⟨by decide, hc, by decide, by decide⟩, ?_, ?_⟩
  · exact (boost_fare_spec cfg0 rideC5 (by decide) hc).1 (by decide) (by decide)
  · exact (boost_fare_spec cfg0 rideC5 (by decide) hc).2.1

/-! Lifecycle transition function. -/

theorem run_transitions_history (s : Ride × List RideStatus)
    (ts : List (Status × String × Nat)) :
    (run_transitions s ts).2.length = s.2.length + ts.length ∧
    ∃ tail, (run_transitions s ts).2 = s.2 ++ tail := by
  induction ts generalizing s with
  | nil => exact ⟨by simp [run_transitions], [], by simp [run_transitions]⟩
  | cons t ts ih =>
    obtain ⟨hlen, tail, htail⟩ := ih (apply_transition s t)
    refine ⟨?_, ?_⟩
    · show (run_transitions (apply_transition s t) ts).2.length
        = s.2.length + (t :: ts).length
      rw [hlen]
      simp only [apply_transition, List.length_append, List.length_cons,
        List.length_nil]
      omega
    · refine ⟨(s.1.update_status t.1 t.2.1 t.2.2).2 :: tail, ?_⟩
      show (run_transitions (apply_transition s t) ts).2 = _
      rw [htail]
      simp [apply_transition]

/-- C7: each transition sets the status, sets the timestamp of the entered
state only when it is not already set and never overwrites a set
timestamp (including the cancellation reason bound to cancelled_at), and
appends exactly one history row, so the history length equals the number
of transitions performed and the previous history is preserved unchanged
as a prefix. -/
theorem update_status_spec :
    (∀ (r : Ride) (ns : Status) (notes : String) (now t : Nat),
      (r.accepted_at = some t → ((r.update_status ns notes now).1).accepted_at = some t) ∧
      (r.started_at = some t → ((r.update_status ns notes now).1).started_at = some t) ∧
      (r.completed_at = some t → ((r.update_status ns notes now).1).completed_at = some t) ∧
      (r.cancelled_at = some t → ((r.update_status ns notes now).1).cancelled_at = some t ∧
        ((r.update_status ns notes now).1).cancellation_reason = r.cancellation_reason)) ∧
    (∀ (r : Ride) (notes : String) (now : Nat),
      (r.accepted_at = none →
        ((r.update_status .assigned notes now).1).accepted_at = some now) ∧
      (r.started_at = none →
        ((r.update_status .in_progress notes now).1).started_at = some now) ∧
      (r.completed_at = none →
        ((r.update_status .completed notes now).1).completed_at = some now)) ∧
    (∀ (r : Ride) (ns : Status) (notes : String) (now : Nat),
      ns.isCancelled = true → r.cancelled_at = none →
      ((r.update_status ns notes now).1).cancelled_at = some now ∧
      ((r.update_status ns notes now).1).cancellation_reason = notes) ∧
    (∀ (s : Ride × List RideStatus) (t : Status × String × Nat),
      (apply_transition s t).2 = s.2 ++ [(s.1.update_status t.1 t.2.1 t.2.2).2]) ∧
    (∀ (s : Ride × List RideStatus) (ts : List (Status × String × Nat)),
      (run_transitions s ts).2.length = s.2.length + ts.length ∧
      ∃ tail, (run_transitions s ts).2 = s.2 ++ tail) := by
  refine ⟨?_, ?_, ?_, fun s t => rfl, run_transitions_history⟩
  · intro r ns notes now t
    refine ⟨?_, ?_, ?_, ?_⟩ <;> intro h <;>
      simp only [Ride.update_status] <;> split_ifs with h1 h2 h3 h4 <;>
      simp_all
  · intro r notes now
    refine ⟨?_, ?_, ?_⟩ <;> intro h <;>
      simp only [Ride.update_status] <;> split_ifs <;> simp_all [Status.isCancelled]
  · intro r ns notes now hcan hnone
    simp only [Ride.update_status]
    split_ifs with h1 h2 h3 h4 <;> simp_all <;> cases ns <;>
      simp_all [Status.isCancelled]

/-- Ride fixtures for the lifecycle claims. -/
def rideC7 : Ride :=
  { id := 3, passenger := 1, driver := some 2, estimated_cost := 400,
    current_cost := some 400, fare_boosts := 0, status := .requested,
    accepted_at := none, started_at := none, completed_at := none,
    cancelled_at := none, cancellation_reason := "" }

/-- Witness for C7: a concrete first transition into assigned sets
accepted_at, and a history of three transitions has length three. -/
theorem update_status_spec_witness :
    (rideC7.accepted_at = none ∧
      ((rideC7.update_status .assigned "Driver assigned" 5).1).accepted_at = some 5) ∧
    (run_transitions (rideC7, [])
      [(.assigned, "", 5), (.in_progress, "", 6), (.completed, "", 7)]).2.length = 0 + 3 :=
  ⟨⟨rfl, (update_status_spec.2.1 rideC7 "Driver assigned" 5).1 rfl⟩,
   (update_status_spec.2.2.2.2 (rideC7, [])
      [(.assigned, "", 5), (.in_progress, "", 6), (.completed, "", 7)]).1⟩

/-- Ride fixture in a terminal status for C8. -/
def rideC8 : Ride :=
  { id := 4, passenger := 1, driver := some 2, estimated_cost := 400,
    current_cost := some 400, fare_boosts := 0, status := .completed,
    accepted_at := some 1, started_at := some 2, completed_at := some 3,
    cancelled_at := none, cancellation_reason := "" }

/-- C8 counterexample: a ride in the terminal status completed is moved
back to in_progress by a further transition call; the transition is not
refused and the status does change. -/
theorem terminal_transition_counterexample :
    rideC8.status.isTerminal = true ∧
    ((rideC8.update_status .in_progress "" 10).1).status = .in_progress := by
  decide

/-- C8 amended: the transition function enforces nothing: invoked on a
ride whose status is terminal it still applies the requested status and
still emits a history row; only already-set timestamps survive.  Terminal
statuses are terminal only in the sense that no handler invokes further
transitions. -/
theorem terminal_status_not_enforced (r : Ride) (ns : Status) (notes : String)
    (now : Nat) (hterm : r.status.isTerminal = true) :
    ((r.update_status ns notes now).1).status = ns ∧
    (r.update_status ns notes now).2 =
      { ride := r.id, status := ns, notes := notes, created_at := now } :=
  ⟨update_status_status r ns notes now, rfl⟩

/-- Witness for C8 amended at the completed fixture. -/
theorem terminal_status_not_enforced_witness :
    rideC8.status.isTerminal = true ∧
    ((rideC8.update_status .requested "" 11).1).status = .requested :=
  ⟨by decide, (terminal_status_not_enforced rideC8 .requested "" 11 (by decide)).1⟩

/-! Acceptance of rides. -/

theorem findRequestedRide_some {rides : List Ride} {rid : Nat} {r : Ride}
    (h : findRequestedRide rides rid = some r) :
    r.id = rid ∧ r.status = .requested := by
  have := List.find?_some h
  simpa using this

theorem accept_ride_err_of_none (w : World) (d rid now : Nat)
    (h : findRequestedRide w.rides rid = none) :
    ∃ m, accept_ride w d rid now = (.err m, w) := by
  rcases hu : w.users.find? (fun u => decide (u.id = d)) with _ | u
  · exact ⟨"Error accepting ride", by simp [accept_ride, accept_ride_read, hu]⟩
  · by_cases hdp : u.has_driver_profile = false
    · exact ⟨"Error accepting ride", by simp [accept_ride, accept_ride_read, hu, hdp]⟩
    · by_cases hact : driverHasActiveRide w.rides u.id = true
      · exact ⟨activeRideMsg, by simp [accept_ride, accept_ride_read, hu, hdp, hact]⟩
      · exact ⟨"Ride not available",
          by simp [accept_ride, accept_ride_read, hu, hdp, hact, h]⟩

theorem run_accepts_none (w : World) (rid now : Nat) (ds : List Nat)
    (h : findRequestedRide w.rides rid = none) :
    run_accepts w rid now ds = (w, 0) := by
  induction ds with
  | nil => rfl
  | cons d ds ih =>
    obtain ⟨m, hm⟩ := accept_ride_err_of_none w d rid now h
    simp only [run_accepts, hm, ih]

theorem find_requested_after_write (w : World) (d now rid : Nat) (r : Ride)
    (hr : findRequestedRide w.rides rid = some r) :
    findRequestedRide (accept_ride_write w d r now).rides rid = none := by
  obtain ⟨hid, hst⟩ := findRequestedRide_some hr
  rw [findRequestedRide, List.find?_eq_none]
  intro x hx
  simp only [accept_ride_write, World.setRide, List.mem_map] at hx
  obtain ⟨orig, horig, hxeq⟩ := hx
  by_cases hcase : orig.id =
      ((Ride.update_status { r with driver := some d } .assigned "Driver assigned" now).1).id
  · rw [if_pos hcase] at hxeq
    subst hxeq
    simp [update_status_status]
  · rw [if_neg hcase] at hxeq
    subst hxeq
    rw [update_status_id] at hcase
    simp only [decide_eq_true_eq, not_and]
    intro hxid
    exact absurd (by simpa [hid] using hxid) hcase

theorem accept_write_driver_bound (w : World) (d now rid : Nat) (r : Ride)
    (hr : findRequestedRide w.rides rid = some r) :
    ∀ x ∈ (accept_ride_write w d r now).rides, x.id = rid → x.driver = some d := by
  obtain ⟨hid, hst⟩ := findRequestedRide_some hr
  intro x hx hxid
  simp only [accept_ride_write, World.setRide, List.mem_map] at hx
  obtain ⟨orig, horig, hxeq⟩ := hx
  by_cases hcase : orig.id =
      ((Ride.update_status { r with driver := some d } .assigned "Driver assigned" now).1).id
  · rw [if_pos hcase] at hxeq
    subst hxeq
    simp [update_status_driver]
  · rw [if_neg hcase] at hxeq
    subst hxeq
    rw [update_status_id] at hcase
    exact absurd (by simpa [hid] using hxid) hcase

/-- C1 amended: when the accept calls of the drivers are serialized (no
interleaving), exactly the first eligible caller succeeds, every later
call fails with a state conflict and changes nothing, and the ride stays
bound to the first caller.  The source performs a plain fetch followed by
a blind save rather than a single compare-and-set, so this guarantee holds
only for serialized executions; the separate counterexample shows an
interleaving in which two attempts both succeed and the driver binding is
overwritten. -/
theorem serialized_accept_exactly_one (w : World) (rid now d : Nat) (ds : List Nat)
    (u : User) (r : Ride)
    (hu : w.users.find? (fun x => decide (x.id = d)) = some u)
    (hdp : u.has_driver_profile = true)
    (hnact : driverHasActiveRide w.rides u.id = false)
    (hr : findRequestedRide w.rides rid = some r) :
    (run_accepts w rid now (d :: ds)).2 = 1 ∧
    ∀ x ∈ (run_accepts w rid now (d :: ds)).1.rides,
      x.id = rid → x.driver = some d := by
  have hacc : accept_ride w d rid now =
      (.ok (Ride.update_status { r with driver := some d }
          .assigned "Driver assigned" now).1,
        accept_ride_write w d r now) := by
    simp [accept_ride, accept_ride_read, hu, hdp, hnact, hr]
  have hnone := find_requested_after_write w d now rid r hr
  have hz := run_accepts_none (accept_ride_write w d r now) rid now ds hnone
  have hrun : run_accepts w rid now (d :: ds) = (accept_ride_write w d r now, 1) := by
    simp only [run_accepts, hacc, hz]
  rw [hrun]
  exact ⟨rfl, accept_write_driver_bound w d now rid r hr⟩

/-- Requested ride fixture. -/
def rideReq1 : Ride :=
  { id := 1, passenger := 9, driver := none, estimated_cost := 400,
    current_cost := some 400, fare_boosts := 0, status := .requested,
    accepted_at := none, started_at := none, completed_at := none,
    cancelled_at := none, cancellation_reason := "" }

/-- Driver user fixtures. -/
def userD1 : User :=
  { id := 1, has_passenger_profile := false, has_driver_profile := true }

def userD2 : User :=
  { id := 2, has_passenger_profile := false, has_driver_profile := true }

/-- World fixture for the accept race: one requested ride, two driver
users. -/
def wC1 : World :=
  { rides := [rideReq1], history := [], drivers := [],
    users := [userD1, userD2],
    ratings := [], offers := [], timers := [], passenger_msgs := [],
    next_message_id := 1 }

/-- C1 counterexample: with the read phases of two accept attempts from
distinct drivers both running before either blind save (possible because
the source takes no lock and saves unconditionally), both attempts report
success, the ride is first bound to driver 1 and then rebound to driver 2:
acceptance is not a single compare-and-set, not exactly one attempt
succeeds, and ride.driver is set twice. -/
theorem accept_race_counterexample :
    ((accept_two_interleaved wC1 1 2 1 50).1 = (true, true)) ∧
    ((accept_two_interleaved wC1 1 2 1 50).2.1.rides.map Ride.driver = [some 1]) ∧
    ((accept_two_interleaved wC1 1 2 1 50).2.2.rides.map Ride.driver = [some 2]) := by
  decide

/-- Witness for C1 amended: the serialized run of the same two drivers on
the same fixture yields exactly one success. -/
theorem serialized_accept_exactly_one_witness :
    (wC1.users.find? (fun x => decide (x.id = 1)) = some userD1 ∧
      driverHasActiveRide wC1.rides 1 = false ∧
      findRequestedRide wC1.rides 1 = some rideReq1) ∧
    (run_accepts wC1 1 50 [1, 2]).2 = 1 :=
  ⟨⟨by decide, by decide, by decide⟩,
    (serialized_accept_exactly_one wC1 1 50 1 [2] userD1 rideReq1
      (by decide) rfl (by decide) (by decide)).1⟩

/-- C2: a caller with a driver profile that holds any ride in an active
status (assigned, driver_enroute, driver_arrived or in_progress) is
refused with the active-ride message, and the state, in particular the
target ride, is unchanged. -/
theorem accept_ride_single_active (w : World) (d ride_id now : Nat) (u : User)
    (r : Ride)
    (hu : w.users.find? (fun x => decide (x.id = d)) = some u)
    (hdp : u.has_driver_profile = true)
    (hmem : r ∈ w.rides) (hdr : r.driver = some u.id)
    (hact : r.status.isActive = true) :
    accept_ride w d ride_id now = (.err activeRideMsg, w) := by
  have hactive : driverHasActiveRide w.rides u.id = true := by
    simp only [driverHasActiveRide, List.any_eq_true]
    exact ⟨r, hmem, by simp [hdr, hact]⟩
  simp [accept_ride, accept_ride_read, hu, hdp, hactive]

/-- Active ride fixture held by driver user 1. -/
def rideActive5 : Ride :=
  { id := 5, passenger := 9, driver := some 1, estimated_cost := 400,
    current_cost := some 400, fare_boosts := 0, status := .in_progress,
    accepted_at := some 1, started_at := some 2, completed_at := none,
    cancelled_at := none, cancellation_reason := "" }

/-- Second requested ride fixture. -/
def rideReq6 : Ride :=
  { id := 6, passenger := 8, driver := none, estimated_cost := 400,
    current_cost := some 400, fare_boosts := 0, status := .requested,
    accepted_at := none, started_at := none, completed_at := none,
    cancelled_at := none, cancellation_reason := "" }

/-- World fixture for C2: driver user 1 already holds an in_progress ride
and a second requested ride exists. -/
def wC2 : World :=
  { rides := [rideActive5, rideReq6], history := [], drivers := [],
    users := [userD1],
    ratings := [], offers := [], timers := [], passenger_msgs := [],
    next_message_id := 1 }

/-- Witness for C2 on the fixture. -/
theorem accept_ride_single_active_witness :
    accept_ride wC2 1 6 9 = (.err activeRideMsg, wC2) :=
  accept_ride_single_active wC2 1 6 9 userD1 rideActive5
    (by decide) rfl (by decide) rfl (by decide)

/-! Permission checks on transitions. -/

/-- C9 amended: when a non-null identity is supplied and it belongs to a
user who is neither the bound passenger nor the bound driver, both the
status transition service and the cancellation service fail with
Permission denied and change nothing; but the transition service also
accepts a null identity (its default), in which case the permission check
is skipped entirely, as the separate counterexample shows. -/
theorem transition_permission_denied (w : World) (rid : Nat) (ns : Status)
    (notes reason : String) (uid now : Nat) (u : User) (ride : Ride)
    (hride : w.rides.find? (fun r => decide (r.id = rid)) = some ride)
    (hu : w.users.find? (fun x => decide (x.id = uid)) = some u)
    (hperm : has_permission u ride = false) :
    update_ride_status w rid ns notes (some uid) now = (.err "Permission denied", w) ∧
    cancel_ride w rid uid reason now = (.err "Permission denied", w) := by
  have hp := hperm
  simp only [has_permission, Bool.or_eq_false_iff] at hp
  obtain ⟨h1, h2⟩ := hp
  constructor
  · simp [update_ride_status, hride, hu, hperm]
  · simp [cancel_ride, hu, hride, h1, h2]

/-- Assigned ride fixture bound to passenger user 1 and driver user 2. -/
def rideAssigned1 : Ride :=
  { id := 1, passenger := 1, driver := some 2, estimated_cost := 400,
    current_cost := some 400, fare_boosts := 0, status := .assigned,
    accepted_at := some 1, started_at := none, completed_at := none,
    cancelled_at := none, cancellation_reason := "" }

/-- Passenger user fixture that is not the passenger of rideAssigned1. -/
def userP3 : User :=
  { id := 3, has_passenger_profile := true, has_driver_profile := false }

/-- World fixture for the permission claims. -/
def wC9 : World :=
  { rides := [rideAssigned1], history := [], drivers := [],
    users := [userP3],
    ratings := [], offers := [], timers := [], passenger_msgs := [],
    next_message_id := 1 }

/-- C9 counterexample: the public transition operation accepts a null
identity argument (its declared default), and such a call performs no
permission check and mutates the ride: it succeeds and changes the status
instead of failing with a permission error and leaving the ride
unchanged. -/
theorem transition_permission_counterexample :
    (update_ride_status wC9 1 .completed "" none 30).1 =
      .ok ((rideAssigned1.update_status .completed "" 30).1) ∧
    (update_ride_status wC9 1 .completed "" none 30).2.rides.map Ride.status =
      [.completed] := by
  decide

/-- Witness for C9 amended on the fixture: user 3 is bound to neither side
of the ride and is refused by both services. -/
theorem transition_permission_denied_witness :
    (wC9.rides.find? (fun r => decide (r.id = 1)) = some rideAssigned1 ∧
      wC9.users.find? (fun x => decide (x.id = 3)) = some userP3 ∧
      has_permission userP3 rideAssigned1 = false) ∧
    update_ride_status wC9 1 .completed "" (some 3) 30 =
      (.err "Permission denied", wC9) ∧
    cancel_ride wC9 1 3 "reason" 30 = (.err "Permission denied", wC9) :=
  ⟨⟨by decide, by decide, by decide⟩,
    (transition_permission_denied wC9 1 .completed "" "reason" 3 30 userP3
      rideAssigned1 (by decide) (by decide) (by decide)).1,
    (transition_permission_denied wC9 1 .completed "" "reason" 3 30 userP3
      rideAssigned1 (by decide) (by decide) (by decide)).2⟩

/-! Fare boost failure reasons. -/

/-- C6 amended: a boost attempt at the limit fails with the specific
limit-reached message, but the not-owner and wrong-state violations are
folded into a single database lookup (id, owner and requested status in
one query), so both fail with the same generic message and are not
distinguishable from each other. -/
theorem boost_ride_fare_reasons (cfg : AppSettings) (w : World) (uid rid : Nat)
    (u : User)
    (hu : w.users.find? (fun x => decide (x.id = uid)) = some u)
    (hp : u.has_passenger_profile = true) :
    (find_owned_requested_ride w.rides u.id rid = none →
      boost_ride_fare cfg w uid rid = (.err "Ride not found or cannot be boosted", w)) ∧
    (∀ ride, find_owned_requested_ride w.rides u.id rid = some ride →
      cfg.max_fare_boosts ≤ ride.fare_boosts →
      boost_ride_fare cfg w uid rid = (.err "Maximum fare boosts already applied", w)) := by
  constructor
  · intro hnone
    simp [boost_ride_fare, hu, hp, hnone]
  · intro ride hsome hmax
    have hbf : ride.boost_fare cfg = ((false, "Maximum fare boosts already applied"), ride) := by
      simp [Ride.boost_fare, if_pos hmax]
    simp [boost_ride_fare, hu, hp, hsome, hbf]

/-- Requested ride fixture owned by passenger user 1. -/
def rideC6a : Ride :=
  { id := 1, passenger := 1, driver := none, estimated_cost := 400,
    current_cost := some 400, fare_boosts := 0, status := .requested,
    accepted_at := none, started_at := none, completed_at := none,
    cancelled_at := none, cancellation_reason := "" }

/-- Assigned ride fixture owned by passenger user 1. -/
def rideC6b : Ride :=
  { id := 2, passenger := 1, driver := some 2, estimated_cost := 400,
    current_cost := some 400, fare_boosts := 0, status := .assigned,
    accepted_at := some 1, started_at := none, completed_at := none,
    cancelled_at := none, cancellation_reason := "" }

/-- Passenger user fixture owning the C6 rides. -/
def userP1 : User :=
  { id := 1, has_passenger_profile := true, has_driver_profile := false }

/-- World fixture for the boost reason claims. -/
def wC6 : World :=
  { rides := [rideC6a, rideC6b], history := [], drivers := [],
    users := [userP1, userP3],
    ratings := [], offers := [], timers := [], passenger_msgs := [],
    next_message_id := 1 }

/-- C6 counterexample: a not-owner failure (user 3 boosting the requested
ride of user 1) and a wrong-state failure (user 1 boosting an assigned
ride) return the very same generic message, so the two violated
preconditions are not distinguishable by the returned reason. -/
theorem boost_reason_counterexample :
    (boost_ride_fare cfg0 wC6 3 1).1 = .err "Ride not found or cannot be boosted" ∧
    (boost_ride_fare cfg0 wC6 1 2).1 = .err "Ride not found or cannot be boosted" := by
  decide

/-- Ride fixture at the boost limit, owned by passenger user 1. -/
def rideC6max : Ride :=
  { id := 1, passenger := 1, driver := none, estimated_cost := 400,
    current_cost := some 700, fare_boosts := 3, status := .requested,
    accepted_at := none, started_at := none, completed_at := none,
    cancelled_at := none, cancellation_reason := "" }

/-- World fixture with the boost count at the limit. -/
def wC6max : World :=
  { rides := [rideC6max], history := [], drivers := [],
    users := [userP1],
    ratings := [], offers := [], timers := [], passenger_msgs := [],
    next_message_id := 1 }

/-- Witness for C6 amended: the limit-reached failure and the generic
lookup failure on concrete worlds. -/
theorem boost_ride_fare_reasons_witness :
    (wC6max.users.find? (fun x => decide (x.id = 1)) = some userP1 ∧
      find_owned_requested_ride wC6max.rides 1 1 = some rideC6max ∧
      find_owned_requested_ride wC6max.rides 1 99 = none ∧
      cfg0.max_fare_boosts ≤ rideC6max.fare_boosts) ∧
    boost_ride_fare cfg0 wC6max 1 1 =
      (.err "Maximum fare boosts already applied", wC6max) ∧
    boost_ride_fare cfg0 wC6max 1 99 =
      (.err "Ride not found or cannot be boosted", wC6max) :=
  ⟨⟨by decide, by decide, by decide, by decide⟩,
    (boost_ride_fare_reasons cfg0 wC6max 1 1 userP1 (by decide) rfl).2
      rideC6max (by decide) (by decide),
    (boost_ride_fare_reasons cfg0 wC6max 1 99 userP1 (by decide) rfl).1
      (by decide)⟩

/-! Escalation after an expired offer. -/

theorem cancel_no_drivers_fields (w : World) (rid now : Nat) (r : Ride)
    (hr : findRequestedRide w.rides rid = some r) :
    (∀ x ∈ (cancel_ride_no_drivers w rid now).2.rides, x.id = rid →
      x.status = .cancelled_by_system) ∧
    (cancel_ride_no_drivers w rid now).2.offers = w.offers := by
  obtain ⟨hid, hst⟩ := findRequestedRide_some hr
  simp only [cancel_ride_no_drivers, hr]
  constructor
  · intro x hx hxid
    simp only [World.setRide, List.mem_map] at hx
    obtain ⟨orig, horig, hxeq⟩ := hx
    by_cases hcase : orig.id =
        ((r.update_status .cancelled_by_system "No drivers available" now).1).id
    · rw [if_pos hcase] at hxeq
      subst hxeq
      exact update_status_status r .cancelled_by_system "No drivers available" now
    · rw [if_neg hcase] at hxeq
      subst hxeq
      rw [update_status_id] at hcase
      exact absurd (by simpa [hid] using hxid) hcase
  · rfl

/-- C3 amended: when an offer expires on a ride that is still requested,
the escalation recomputes the candidate list excluding only the single
timed-out driver (live-offer holders are not excluded), and it notifies
only the first candidate of the filtered list, registering exactly one
fresh offer; when no candidate other than the excluded driver exists, the
ride is cancelled by the system with reason No drivers available and no
offer is sent. -/
theorem reassign_behavior (w : World) (rid now : Nat) (exclude : Option Nat)
    (ride : Ride)
    (hr : findRequestedRide w.rides rid = some ride) :
    (∀ c, find_next_candidate (get_nearby_rides_for_new_ride w.drivers) exclude = some c →
      reassign_ride_to_next_driver w rid exclude now =
        (true, send_driver_notification w c.driver.user_id ride)) ∧
    (find_next_candidate (get_nearby_rides_for_new_ride w.drivers) exclude = none →
      (reassign_ride_to_next_driver w rid exclude now).1 = false ∧
      (∀ x ∈ (reassign_ride_to_next_driver w rid exclude now).2.rides,
        x.id = rid → x.status = .cancelled_by_system) ∧
      (reassign_ride_to_next_driver w rid exclude now).2.offers = w.offers) := by
  constructor
  · intro c hc
    have hne : (get_nearby_rides_for_new_ride w.drivers).isEmpty = false := by
      cases hl : get_nearby_rides_for_new_ride w.drivers with
      | nil => rw [hl] at hc; simp [find_next_candidate] at hc
      | cons a as => simp
    simp [reassign_ride_to_next_driver, hr, hne, hc]
  · intro hnone
    have hres : reassign_ride_to_next_driver w rid exclude now =
        (false, (cancel_ride_no_drivers w rid now).2) := by
      by_cases hne : (get_nearby_rides_for_new_ride w.drivers).isEmpty
      · simp [reassign_ride_to_next_driver, hr, hne]
      · simp [reassign_ride_to_next_driver, hr, hne, hnone]
    rw [hres]
    have hc := cancel_no_drivers_fields w rid now ride hr
    exact ⟨rfl, hc.1, hc.2⟩

/-- Online verified driver fixtures for the escalation and boost
broadcasts. -/
def driverB : Driver :=
  { user_id := 2, is_online := true, is_verified := true, has_location := true,
    distance_to_pickup := 1, average_rating := 0 }

def driverC : Driver :=
  { user_id := 3, is_online := true, is_verified := true, has_location := true,
    distance_to_pickup := 2, average_rating := 0 }

/-- A pre-existing live offer message held by driver user 2 for ride 1, at
the pre-boost cost 400. -/
def offerOldB : Offer :=
  { ride_id := 1, driver_id := 2, message_id := 7, cost := 400 }

/-- The auto reject timer of that offer. -/
def timerOldB : Timer :=
  { ride_id := 1, driver_id := 2, message_id := 7 }

/-- World fixture for the escalation claim: ride 1 requested, drivers 2
and 3 online and verified, driver 2 holding a live offer, driver 4 the
driver whose offer just expired. -/
def wC3 : World :=
  { rides := [rideReq1], history := [], drivers := [driverB, driverC],
    users := [],
    ratings := [], offers := [offerOldB], timers := [timerOldB],
    passenger_msgs := [], next_message_id := 9 }

/-- C3 counterexample: escalating after the expiry of the offer of driver
4 re-notifies driver 2 even though driver 2 already holds a live offer for
the ride, and sends nothing to driver 3: the residual set of the claim is
driver 3 alone, but the code excludes only the timed-out driver and then
notifies exactly one driver, the closest one. -/
theorem reassign_counterexample :
    wC3.offers.map Offer.driver_id = [2] ∧
    (reassign_ride_to_next_driver wC3 1 (some 4) 20).2.offers =
      wC3.offers ++ [{ ride_id := 1, driver_id := 2, message_id := 9, cost := 400 }] := by
  decide

/-- Witness for C3 amended on the fixture. -/
theorem reassign_behavior_witness :
    (findRequestedRide wC3.rides 1 = some rideReq1 ∧
      find_next_candidate (get_nearby_rides_for_new_ride wC3.drivers) (some 4) =
        some { driver := driverB, distance_km := 1 }) ∧
    reassign_ride_to_next_driver wC3 1 (some 4) 20 =
      (true, send_driver_notification wC3 2 rideReq1) :=
  ⟨⟨by decide, by decide⟩,
    (reassign_behavior wC3 1 20 (some 4) rideReq1 (by decide)).1
      { driver := driverB, distance_km := 1 } (by decide)⟩

/-! Boost re-broadcast. -/

/-- The offers a full boosted broadcast appends: one per candidate, in
candidate order, with consecutive message ids and the current display
cost. -/
def boosted_offers (startId : Nat) (r : Ride) : List CandidateEntry → List Offer
  | [] => []
  | c :: cs =>
    { ride_id := r.id, driver_id := c.driver.user_id, message_id := startId,
      cost := r.display_cost } :: boosted_offers (startId + 1) r cs

/-- The timers a full boosted broadcast schedules. -/
def boosted_timers (startId : Nat) (r : Ride) : List CandidateEntry → List Timer
  | [] => []
  | c :: cs =>
    { ride_id := r.id, driver_id := c.driver.user_id, message_id := startId } ::
      boosted_timers (startId + 1) r cs

theorem fold_boost_send (r : Ride) (cs : List CandidateEntry) (w : World) :
    cs.foldl (fun acc c => send_boosted_ride_notification acc c.driver.user_id r) w =
      { w with
        offers := w.offers ++ boosted_offers w.next_message_id r cs,
        timers := w.timers ++ boosted_timers w.next_message_id r cs,
        next_message_id := w.next_message_id + cs.length } := by
  induction cs generalizing w with
  | nil => simp [boosted_offers, boosted_timers]
  | cons c cs ih =>
    simp only [List.foldl_cons]
    rw [ih]
    simp only [send_boosted_ride_notification, boosted_offers, boosted_timers,
      List.append_assoc, List.singleton_append, List.length_cons]
    refine congrArg₂ _ rfl ?_
    omega

theorem boosted_offers_length (startId : Nat) (r : Ride) (cs : List CandidateEntry) :
    (boosted_offers startId r cs).length = cs.length := by
  induction cs generalizing startId with
  | nil => rfl
  | cons c cs ih => simp [boosted_offers, ih]

theorem boosted_offers_mem (startId : Nat) (r : Ride) (cs : List CandidateEntry) :
    ∀ o ∈ boosted_offers startId r cs,
      o.cost = r.display_cost ∧ o.ride_id = r.id ∧
      o.driver_id ∈ cs.map (fun c => c.driver.user_id) := by
  induction cs generalizing startId with
  | nil => intro o ho; cases ho
  | cons c cs ih =>
    intro o ho
    rcases List.mem_cons.mp ho with ho | ho
    · subst ho
      exact ⟨rfl, rfl, by simp⟩
    · obtain ⟨h1, h2, h3⟩ := ih (startId + 1) o ho
      exact ⟨h1, h2, by simp [h3]⟩

/-- C4 amended: a successful boost triggers a full fresh broadcast at the
new display cost to the full current candidate set (one fresh offer and
timer per candidate), but it retires nothing: every offer and every timer
live before the boost is still present afterwards, so a driver can still
respond to a pre-boost offer message showing the stale lower price. -/
theorem boosted_notify_behavior (w : World) (rid : Nat) (ride : Ride)
    (hr : findRequestedRide w.rides rid = some ride)
    (hne : (get_nearby_rides_for_new_ride w.drivers).isEmpty = false) :
    (notify_drivers_about_boosted_ride w rid).1 = true ∧
    (notify_drivers_about_boosted_ride w rid).2.offers =
      w.offers ++ boosted_offers w.next_message_id ride
        (get_nearby_rides_for_new_ride w.drivers) ∧
    (notify_drivers_about_boosted_ride w rid).2.timers =
      w.timers ++ boosted_timers w.next_message_id ride
        (get_nearby_rides_for_new_ride w.drivers) ∧
    (boosted_offers w.next_message_id ride
        (get_nearby_rides_for_new_ride w.drivers)).length =
      (get_nearby_rides_for_new_ride w.drivers).length ∧
    ∀ o ∈ boosted_offers w.next_message_id ride
        (get_nearby_rides_for_new_ride w.drivers),
      o.cost = ride.display_cost ∧ o.ride_id = ride.id ∧
      o.driver_id ∈ (get_nearby_rides_for_new_ride w.drivers).map
        (fun c => c.driver.user_id) := by
  have hres : notify_drivers_about_boosted_ride w rid =
      (true, (get_nearby_rides_for_new_ride w.drivers).foldl
        (fun acc c => send_boosted_ride_notification acc c.driver.user_id ride) w) := by
    simp [notify_drivers_about_boosted_ride, hr, hne]
  rw [hres, fold_boost_send]
  exact ⟨rfl, rfl, rfl, boosted_offers_length _ _ _, boosted_offers_mem _ _ _⟩

/-- Boosted ride fixture: ride 1 after one boost, still requested. -/
def rideBoosted1 : Ride :=
  { id := 1, passenger := 9, driver := none, estimated_cost := 400,
    current_cost := some 500, fare_boosts := 1, status := .requested,
    accepted_at := none, started_at := none, completed_at := none,
    cancelled_at := none, cancellation_reason := "" }

/-- World fixture for the boost re-broadcast: the pre-boost offer of
driver 2 (at cost 400) and its timer are still live. -/
def wC4 : World :=
  { rides := [rideBoosted1], history := [], drivers := [driverB, driverC],
    users := [],
    ratings := [], offers := [offerOldB], timers := [timerOldB],
    passenger_msgs := [], next_message_id := 9 }

/-- C4 counterexample: after the boosted broadcast for the ride now priced
500, the pre-boost offer message of driver 2 at the stale price 400, and
its expiry timer, are both still live: nothing was withdrawn or
cancelled before the fresh broadcast. -/
theorem boosted_notify_counterexample :
    wC4.offers = [offerOldB] ∧ offerOldB.cost = 400 ∧
    rideBoosted1.display_cost = 500 ∧
    offerOldB ∈ (notify_drivers_about_boosted_ride wC4 1).2.offers ∧
    timerOldB ∈ (notify_drivers_about_boosted_ride wC4 1).2.timers := by
  decide

/-- Witness for C4 amended on the fixture. -/
theorem boosted_notify_behavior_witness :
    (findRequestedRide wC4.rides 1 = some rideBoosted1 ∧
      (get_nearby_rides_for_new_ride wC4.drivers).isEmpty = false) ∧
    (notify_drivers_about_boosted_ride wC4 1).1 = true :=
  ⟨⟨by decide, by decide⟩,
    (boosted_notify_behavior wC4 1 rideBoosted1 (by decide) (by decide)).1⟩

/-! Rating settlement. -/

/-- The rating row rate_ride creates. -/
def new_rating (rid uid duid stars : Nat) (comment : String) : Rating :=
  { ride := rid, rated_by := uid, rated_user := duid, stars := stars,
    comment := comment }

theorem set_driver_avg_mem (w : World) (uid : Nat) (v : ℚ) :
    ∀ d ∈ (set_driver_avg w uid v).drivers, d.user_id = uid →
      d.average_rating = v := by
  intro d hd hdid
  simp only [set_driver_avg, List.mem_map] at hd
  obtain ⟨orig, horig, hdeq⟩ := hd
  by_cases hcase : orig.user_id = uid
  · rw [if_pos hcase] at hdeq
    subst hdeq
    rfl
  · rw [if_neg hcase] at hdeq
    subst hdeq
    exact absurd hdid hcase

/-- C10: rating requires a completed ride (no completed row, no effect),
a second rating by the same rater fails with Already rated and adds
nothing, a rater bound to neither side is refused, and when the passenger
rates, the stored driver average becomes the arithmetic mean of every
rating that driver identity has ever received across all rides, the new
one included. -/
theorem rate_ride_spec (w : World) (rid uid stars : Nat) (comment : String)
    (u : User)
    (hu : w.users.find? (fun x => decide (x.id = uid)) = some u) :
    (find_completed_ride w.rides rid = none →
      rate_ride w rid uid stars comment = (.fail, w)) ∧
    (∀ ride, find_completed_ride w.rides rid = some ride →
      (prior_ratings w.ratings rid u.id).isEmpty = false →
      rate_ride w rid uid stars comment = (.err "Already rated", w)) ∧
    (∀ ride, find_completed_ride w.rides rid = some ride →
      (prior_ratings w.ratings rid u.id).isEmpty = true →
      (u.has_passenger_profile && decide (ride.passenger = u.id)) = false →
      (u.has_driver_profile && decide (ride.driver = some u.id)) = false →
      rate_ride w rid uid stars comment = (.err "Permission denied", w)) ∧
    (∀ ride duid, find_completed_ride w.rides rid = some ride →
      (prior_ratings w.ratings rid u.id).isEmpty = true →
      u.has_passenger_profile = true → ride.passenger = u.id →
      ride.driver = some duid →
      (rate_ride w rid uid stars comment).1 =
        .ok (new_rating rid u.id duid stars comment) ∧
      ∀ d ∈ (rate_ride w rid uid stars comment).2.drivers, d.user_id = duid →
        d.average_rating = avg_stars (ratings_for
          (w.ratings ++ [new_rating rid u.id duid stars comment]) duid)) := by
  refine ⟨?_, ?_, ?_, ?_⟩
  · intro hnone
    simp [rate_ride, hu, hnone]
  · intro ride hsome hdup
    simp [rate_ride, hu, hsome, hdup]
  · intro ride hsome hdup h1 h2
    simp [rate_ride, hu, hsome, hdup, h1, h2]
  · intro ride duid hsome hdup hp hpass hdrv
    have hres : rate_ride w rid uid stars comment =
        (.ok (new_rating rid u.id duid stars comment),
          set_driver_avg
            { w with ratings := w.ratings ++ [new_rating rid u.id duid stars comment] }
            duid
            (avg_stars (ratings_for
              (w.ratings ++ [new_rating rid u.id duid stars comment]) duid))) := by
      simp [rate_ride, new_rating, hu, hsome, hdup, hp, hpass, hdrv]
    rw [hres]
    exact ⟨rfl, set_driver_avg_mem _ duid _⟩

/-- Completed ride fixture: passenger user 1, driver user 2. -/
def rideDone1 : Ride :=
  { id := 1, passenger := 1, driver := some 2, estimated_cost := 400,
    current_cost := some 400, fare_boosts := 0, status := .completed,
    accepted_at := some 1, started_at := some 2, completed_at := some 3,
    cancelled_at := none, cancellation_reason := "" }

/-- Driver row fixture of user 2 with prior average 4. -/
def driverProfile2 : Driver :=
  { user_id := 2, is_online := false, is_verified := true,
    has_location := false, distance_to_pickup := 0, average_rating := 4 }

/-- Three prior ratings of driver user 2, each 4 stars, on other rides. -/
def ratingPrior1 : Rating :=
  { ride := 11, rated_by := 5, rated_user := 2, stars := 4, comment := "" }

def ratingPrior2 : Rating :=
  { ride := 12, rated_by := 6, rated_user := 2, stars := 4, comment := "" }

def ratingPrior3 : Rating :=
  { ride := 13, rated_by := 7, rated_user := 2, stars := 4, comment := "" }

/-- World fixture for the rating claim: a known rating history of the
driver, matching the scenario of the spec (prior average 4 over 3
rides). -/
def wC10 : World :=
  { rides := [rideDone1], history := [], drivers := [driverProfile2],
    users := [userP1, userD2],
    ratings := [ratingPrior1, ratingPrior2, ratingPrior3],
    offers := [], timers := [], passenger_msgs := [],
    next_message_id := 1 }

/-- Witness for C10: the passenger rates 5 on the fixture; the stored
average of driver user 2 becomes the mean over all four ratings ever
received. -/
theorem rate_ride_spec_witness :
    (wC10.users.find? (fun x => decide (x.id = 1)) = some userP1 ∧
      find_completed_ride wC10.rides 1 = some rideDone1 ∧
      (prior_ratings wC10.ratings 1 1).isEmpty = true ∧
      rideDone1.driver = some 2) ∧
    ((rate_ride wC10 1 1 5 "").1 = .ok (new_rating 1 1 2 5 "") ∧
      ∀ d ∈ (rate_ride wC10 1 1 5 "").2.drivers, d.user_id = 2 →
        d.average_rating = avg_stars (ratings_for
          (wC10.ratings ++ [new_rating 1 1 2 5 ""]) 2)) :=
  ⟨⟨by decide, by decide, by decide, by decide⟩,
    (rate_ride_spec wC10 1 1 5 "" userP1 (by decide)).2.2.2 rideDone1 2
      (by decide) (by decide) rfl rfl rfl⟩

end TaxiBot
